import Mathlib

/-!
Verification of the UnfiGuestPortal guest-entitlement core against its
natural-language specification.

The definitions below are a shallow embedding of the voucher ledger
(`server/models/Voucher.js`), the payment ledger (`server/models/Payment.js`),
the guest record (`server/models/Guest.js`), the payment controller
(`server/controllers/paymentController.js`), the Stripe webhook handlers
(`services/payments/webhooks/stripeWebhooks.js`) and the guest controller
(`controllers/guestController.js`).  Statuses are kept as the literal strings
the JavaScript stores; times are epoch milliseconds as `Int`; monetary amounts
are `ℚ`.  Persistence (`save()`) is modelled by returning the updated record;
a thrown `Error` is modelled by an error constructor that still carries the
record state that was saved before the throw.
-/

namespace GuestPortal

/-- A voucher document, after `server/models/Voucher.js`.  `redeemedBy` is the
list of `{guestId, redeemedAt}` redemption records. -/
structure Voucher where
  code : String
  status : String
  redemptionCount : Nat
  maxRedemptions : Nat
  multipleUse : Bool
  validFrom : Option Int
  validUntil : Option Int
  redeemedBy : List (Nat × Int)
deriving DecidableEq

/-- The JavaScript guard `this.validFrom && now < this.validFrom` in
`VoucherSchema.methods.redeem`: an absent `validFrom` is falsy and skips the
check. -/
def Voucher.notYetValid (v : Voucher) (now : Int) : Bool :=
  match v.validFrom with
  | none => false
  | some f => now < f

/-- The JavaScript guard `this.validUntil && now > this.validUntil`. -/
def Voucher.pastValid (v : Voucher) (now : Int) : Bool :=
  match v.validUntil with
  | none => false
  | some u => u < now

/-- The JavaScript guard `!this.multipleUse && this.redemptionCount >=
this.maxRedemptions`, used both as the redemption-cap check and as the
flip-to-`redeemed` condition. -/
def Voucher.exhausted (v : Voucher) : Bool :=
  !v.multipleUse && decide (v.maxRedemptions ≤ v.redemptionCount)

/-- Outcome of `VoucherSchema.methods.redeem`: either the saved voucher, or a
thrown error message together with the voucher state at the moment of the
throw (the expired / already-redeemed branches `save()` a status change before
throwing, so the error case must carry the post-save state). -/
inductive RedeemOutcome where
  | ok (voucher : Voucher)
  | err (msg : String) (voucher : Voucher)
deriving DecidableEq

/-- Translation, branch by branch, of `VoucherSchema.methods.redeem(guestId)` from
`server/models/Voucher.js` lines 120–158. -/
def Voucher.redeem (v : Voucher) (guestId : Nat) (now : Int) : RedeemOutcome :=
  if v.status ≠ "active" then
    RedeemOutcome.err ("Voucher is " ++ v.status) v
  else if v.notYetValid now then
    RedeemOutcome.err "Voucher is not yet valid" v
  else if v.pastValid now then
    RedeemOutcome.err "Voucher has expired" { v with status := "expired" }
  else if v.exhausted then
    RedeemOutcome.err "Voucher has already been redeemed" { v with status := "redeemed" }
  else
    let v' : Voucher :=
      { v with redeemedBy := v.redeemedBy ++ [(guestId, now)],
               redemptionCount := v.redemptionCount + 1 }
    if v'.exhausted then RedeemOutcome.ok { v' with status := "redeemed" }
    else RedeemOutcome.ok v'

/-- Translation of `VoucherSchema.methods.isValid()` from `server/models/Voucher.js` lines
161–170. -/
def Voucher.isValid (v : Voucher) (now : Int) : Bool :=
  v.status == "active" && !(v.notYetValid now) && !(v.pastValid now) && !v.exhausted

/-- The restricted character set of `VoucherSchema.statics.generateCode`:
`'ABCDEFGHJKLMNPQRSTUVWXYZ23456789'` (no 0, O, 1, I). -/
def voucherAlphabet : List Char := "ABCDEFGHJKLMNPQRSTUVWXYZ23456789".toList

/-- Translation of `VoucherSchema.statics.generateCode`: each random byte is mapped to
`chars[byte % chars.length]` and the characters are concatenated.  The byte
values drawn from `crypto.randomBytes(length)` are the argument. -/
def generateCode (randomBytes : List Nat) : String :=
  String.mk (randomBytes.map (fun b => voucherAlphabet.getD (b % voucherAlphabet.length) 'A'))

/-- One round of the collision-retry loop of `generateBatch` over a finite
prefix of the random draw sequence: skip candidate codes that already exist
(`await this.findOne({ code })` hits) and return the first fresh candidate
together with the remaining draws.  `none` means the modelled prefix of
randomness was exhausted while the loop was still spinning. -/
def firstFresh (existing : List String) : List String → Option (String × List String)
  | [] => none
  | c :: rest => if existing.contains c then firstFresh existing rest else some (c, rest)

/-- The code-selection part of `VoucherSchema.statics.generateBatch` (lines
210–231): for each of `count` vouchers, re-draw candidate codes until one is
not an already-persisted code.  Faithful detail: the freshness check consults
only the persisted collection `existing`; codes already chosen for the current
batch are *not* added to it, exactly as in the source, where the batch is only
`insertMany`-ed after the loop. -/
def batchCodes (existing : List String) : Nat → List String → Option (List String)
  | 0, _ => some []
  | n + 1, draws =>
    match firstFresh existing draws with
    | none => none
    | some (c, rest) => (batchCodes existing n rest).map (fun cs => c :: cs)

/-- The persistence step `this.insertMany(vouchers)` of `generateBatch`
(Voucher.js line 233), under the schema's unique index on `code` (Voucher.js
line 8, `unique: true`; mongoose's default `autoIndex` is not disabled in the
connection options).  `insertMany` is ordered by default: documents are
inserted one at a time, and the first one whose code duplicates an
already-persisted code makes the database throw a duplicate-key error —
earlier documents of the batch stay persisted, the offending one and the rest
are not inserted.  The result is the success flag and the persisted
collection of codes afterwards. -/
def insertManyOrdered : List String → List String → Bool × List String
  | store, [] => (true, store)
  | store, c :: cs =>
    if store.contains c then (false, store)
    else insertManyOrdered (store ++ [c]) cs

/-- Full `VoucherSchema.statics.generateBatch` over the persisted code set:
the code-selection loop (`batchCodes`) followed by the `insertMany`
persistence step with its unique-index guard (`insertManyOrdered`).  `none`
from the selection loop means the modelled prefix of randomness ran out while
the unbounded retry loop was still spinning; nothing is persisted then. -/
def generateBatch (existing : List String) (count : Nat) (draws : List String) : Bool × List String :=
  match batchCodes existing count draws with
  | none => (false, existing)
  | some codes => insertManyOrdered existing codes

/-- The admin controller `generateVouchers` clamps the requested batch size:
`count: Math.min(count, 100)` (adminController, `// Limit to max 100 vouchers
at once`). -/
def effectiveVoucherCount (count : Nat) : Nat := min count 100

/-- The infinite-stream view of the same `do { code = generateCode(); ... }
while (existingVoucher)` loop, with explicit fuel: `pickCodeFuel existing
draws n` inspects the first `n` draws of the stream and returns the first one
that is not an existing code, `none` if all of the first `n` collide.  The
source loop has no bound: it corresponds to unlimited fuel. -/
def pickCodeFuel (existing : List String) : (Nat → String) → Nat → Option String
  | _, 0 => none
  | draws, n + 1 =>
    if existing.contains (draws 0) then pickCodeFuel existing (fun i => draws (i + 1)) n
    else some (draws 0)

/-- Recorded refund details (`PaymentSchema` `refund` subdocument). -/
structure RefundInfo where
  amount : ℚ
  reason : String
  date : Int
deriving DecidableEq

/-- A payment document, after `server/models/Payment.js`.  `providerData` is
the opaque provider blob, modelled as a key/value association list so that the
spread-merge of `updateStatus` can be expressed. -/
structure Payment where
  id : Nat
  amount : ℚ
  currency : String
  status : String
  provider : String
  providerPaymentId : String
  providerData : List (String × String)
  refund : Option RefundInfo
  guestId : Option Nat
  planId : Option Nat
  processedAt : Option Int
deriving DecidableEq

/-- The spread merge `{ ...this.providerData, ...providerData }`: keys of the
new blob override keys of the old one. -/
def mergeProviderData (old new : List (String × String)) : List (String × String) :=
  old.filter (fun kv => !(new.any (fun kv2 => kv2.1 == kv.1))) ++ new

/-- The `updateStatus` final-status list `['succeeded', 'failed', 'refunded',
'partially_refunded']`. -/
def finalStatuses : List String := ["succeeded", "failed", "refunded", "partially_refunded"]

/-- Translation of `PaymentSchema.methods.updateStatus(status, providerData)` from
`server/models/Payment.js` lines 118–130: the status argument is stored
unconditionally, the provider blobs are merged, and `processedAt` is stamped
with the current time when the new status is final. -/
def Payment.updateStatus (p : Payment) (status : String) (providerData : List (String × String)) (now : Int) : Payment :=
  let p1 : Payment := { p with status := status,
                               providerData := mergeProviderData p.providerData providerData }
  if finalStatuses.contains status then { p1 with processedAt := some now } else p1

/-- The defaulting step `const refundAmount = amount || this.amount` of
`processRefund`: the JavaScript `||` treats an absent *or zero* requested
amount as "refund the full amount". -/
def refundAmountOf (amount : Option ℚ) (paymentAmount : ℚ) : ℚ :=
  match amount with
  | none => paymentAmount
  | some a => if a = 0 then paymentAmount else a

/-- Translation of `PaymentSchema.methods.processRefund(amount, reason)` from
`server/models/Payment.js` lines 133–162.  A thrown error leaves the document
unmodified (nothing was saved), hence plain `Except`. -/
def Payment.processRefund (p : Payment) (amount : Option ℚ) (reason : String) (now : Int) : Except String Payment :=
  if p.status ≠ "succeeded" then
    Except.error ("Cannot refund payment with status: " ++ p.status)
  else if refundAmountOf amount p.amount ≤ 0 then
    Except.error "Refund amount must be greater than zero"
  else if p.amount < refundAmountOf amount p.amount then
    Except.error "Refund amount cannot exceed the original payment amount"
  else
    Except.ok { p with
      status := if refundAmountOf amount p.amount = p.amount then "refunded" else "partially_refunded",
      refund := some ⟨refundAmountOf amount p.amount, reason, now⟩ }

/-- The status mapping of `StripeProvider.getPaymentStatus` (switch on
`paymentIntent.status`). -/
def mapStripeStatus (s : String) : String :=
  if s = "succeeded" then "succeeded"
  else if s = "processing" then "processing"
  else if s = "requires_payment_method" ∨ s = "requires_confirmation" ∨
          s = "requires_action" ∨ s = "requires_capture" then "initialized"
  else if s = "canceled" then "failed"
  else "unknown"

/-- The status-update step of `paymentController.confirmPayment` (lines
147–151): the provider is re-queried, its status is mapped, and
`payment.updateStatus(paymentStatus.status, paymentStatus)` is applied with no
guard on the previously stored status. -/
def confirmPayment (p : Payment) (providerStatus : String) (providerData : List (String × String)) (now : Int) : Payment :=
  p.updateStatus (mapStripeStatus providerStatus) providerData now

/-- A guest document, after `server/models/Guest.js` (the fields the claims
touch). -/
structure Guest where
  mac : String
  authorized : Bool
  authorizedAt : Option Int
  expiresAt : Option Int
  status : String
  accessType : String
  paymentId : Option Nat
  voucherId : Option Nat
  disconnectedAt : Option Int
deriving DecidableEq

/-- The ledger state a webhook event acts on: the payment matched by
`findOne({provider, providerPaymentId})` and the guest record it is linked
to (the result of looking up `payment.guestId`), if any. -/
structure PortalState where
  payment : Payment
  guest : Option Guest
deriving DecidableEq

/-- The guest-authorization block shared by `handlePaymentIntentSucceeded`
(webhook) and `confirmPayment` (controller): authorize the guest and set
`expiresAt = now + plan duration`. -/
def authorizeGuestForPlan (g : Guest) (planDurationMs : Int) (now : Int) : Guest :=
  { g with authorized := true,
           authorizedAt := some now,
           expiresAt := some (now + planDurationMs),
           status := "authorized" }

/-- Translation of `handlePaymentIntentSucceeded(paymentIntent)` from the Stripe webhook
handler (`stripeWebhooks.js` lines 53–163), for the case where the payment
row exists: `payment.updateStatus('succeeded', paymentIntent)` is applied
unconditionally, then, when the payment has a plan and a linked guest, the
guest is re-authorized with `expiresAt` recomputed from the current time.
(The create-a-new-guest branch, taken only when `payment.guestId` is unset,
is not needed by the claims and is not modelled.) -/
def handlePaymentIntentSucceeded (st : PortalState) (intentData : List (String × String)) (planDurationMs : Int) (now : Int) : PortalState :=
  let payment := st.payment.updateStatus "succeeded" intentData now
  match st.payment.planId, st.guest with
  | some _, some g => { payment := payment, guest := some (authorizeGuestForPlan g planDurationMs now) }
  | _, _ => { payment := payment, guest := st.guest }

/-- Result of a refund operation: the updated ledger rows plus the list of
MAC addresses for which `unifiService.unauthorizeGuest` was invoked. -/
structure RefundResult where
  payment : Payment
  guest : Option Guest
  unauthorizeCalls : List String
deriving DecidableEq

/-- The refund-status computation of `paymentController.refundPayment` (line
379): `amount && amount < payment.amount ? 'partially_refunded' :
'refunded'` — a missing or zero (falsy) requested amount means a full
refund. -/
def refundStatusOf (amount : Option ℚ) (paymentAmount : ℚ) : String :=
  match amount with
  | none => "refunded"
  | some a => if a ≠ 0 ∧ a < paymentAmount then "partially_refunded" else "refunded"

/-- The guest-revocation block shared by `refundPayment` (lines 389–407) and
`handleChargeRefunded` (lines 247–260): when the payment has a linked guest,
the refund was full, and the guest's access really came from this payment
(`accessType === 'payment' && paymentId.equals(payment._id)`), the guest is
deauthorized and disconnected.  `callsUnauthorize` distinguishes the admin
path (which calls `unifiService.unauthorizeGuest(guest.mac)`) from the
webhook path (where that call is only a `// TODO` comment). -/
def revokeGuestAccess (p : Payment) (g : Option Guest) (refundStatus : String) (callsUnauthorize : Bool) (now : Int) : Option Guest × List String :=
  if p.guestId.isSome ∧ refundStatus = "refunded" then
    match g with
    | some guest =>
      if guest.accessType = "payment" ∧ guest.paymentId = some p.id then
        (some { guest with authorized := false, status := "disconnected", disconnectedAt := some now },
         if callsUnauthorize then [guest.mac] else [])
      else (g, [])
    | none => (g, [])
  else (g, [])

/-- Translation of `paymentController.refundPayment` (lines 343–422), after the provider
call succeeded: reject non-`succeeded` payments with a 400 and no ledger
change; otherwise store the refund via `updateStatus`, and on a full refund
deauthorize the linked guest and call the controller's unauthorize. -/
def refundPayment (p : Payment) (g : Option Guest) (amount : Option ℚ) (refundData : List (String × String)) (now : Int) : Except String RefundResult :=
  if p.status ≠ "succeeded" then
    Except.error ("Cannot refund payment with status: " ++ p.status)
  else
    Except.ok
      { payment := p.updateStatus (refundStatusOf amount p.amount) refundData now,
        guest := (revokeGuestAccess p g (refundStatusOf amount p.amount) true now).1,
        unauthorizeCalls := (revokeGuestAccess p g (refundStatusOf amount p.amount) true now).2 }

/-- The full-vs-partial decision of `handleChargeRefunded`:
`charge.amount_refunded === charge.amount ? 'refunded' :
'partially_refunded'`. -/
def chargeRefundStatusOf (chargeAmount chargeAmountRefunded : ℚ) : String :=
  if chargeAmountRefunded = chargeAmount then "refunded" else "partially_refunded"

/-- Translation of `handleChargeRefunded(charge)` from the Stripe webhook handler
(`stripeWebhooks.js` lines 208–271), for the case where the payment row
exists: the payment is updated via `updateStatus` with the full-vs-partial
status, and on a full refund the linked guest is deauthorized in the ledger —
but the UniFi unauthorize call is only a `TODO` comment, so no unauthorize is
issued. -/
def handleChargeRefunded (p : Payment) (g : Option Guest) (chargeAmount chargeAmountRefunded : ℚ) (chargeData : List (String × String)) (now : Int) : RefundResult :=
  { payment := p.updateStatus (chargeRefundStatusOf chargeAmount chargeAmountRefunded) chargeData now,
    guest := (revokeGuestAccess p g (chargeRefundStatusOf chargeAmount chargeAmountRefunded) false now).1,
    unauthorizeCalls := (revokeGuestAccess p g (chargeRefundStatusOf chargeAmount chargeAmountRefunded) false now).2 }

/-- C3: for a single-use voucher whose redemption count has reached its cap,
every redeem attempt fails, appends no redemption record and does not
increment the count; and for a fresh voucher with `maxRedemptions = 1` the
first redemption succeeds, flips the status to `redeemed`, and every later
redemption of the same voucher fails without changing it. -/
theorem single_use_exhaustion_spec :
    ∀ (v : Voucher) (guestId : Nat) (now : Int),
      (v.multipleUse = false → v.maxRedemptions ≤ v.redemptionCount →
        ∃ msg v', v.redeem guestId now = RedeemOutcome.err msg v' ∧
          v'.redemptionCount = v.redemptionCount ∧ v'.redeemedBy = v.redeemedBy) ∧
      (v.status = "active" → v.multipleUse = false → v.maxRedemptions = 1 →
        v.redemptionCount = 0 → v.notYetValid now = false → v.pastValid now = false →
        ∃ v', v.redeem guestId now = RedeemOutcome.ok v' ∧
          v'.status = "redeemed" ∧ v'.redemptionCount = 1 ∧
          v'.redeemedBy = v.redeemedBy ++ [(guestId, now)] ∧
          ∀ g2 t2, v'.redeem g2 t2 = RedeemOutcome.err "Voucher is redeemed" v') := by
  intro v guestId now
  constructor
  · intro hmu hcap
    unfold Voucher.redeem
    split
    · exact ⟨_, v, rfl, rfl, rfl⟩
    · split
      · exact ⟨_, v, rfl, rfl, rfl⟩
      · split
        · exact ⟨_, _, rfl, rfl, rfl⟩
        · have hex : v.exhausted = true := by
            simp [Voucher.exhausted, hmu, hcap]
          simp only [hex]
          exact ⟨_, _, rfl, rfl, rfl⟩
  · intro hs hmu hmax hcnt hny hpv
    have hex : v.exhausted = false := by
      simp [Voucher.exhausted, hmu, hmax, hcnt]
    have hex' : ({ v with redeemedBy := v.redeemedBy ++ [(guestId, now)],
                          redemptionCount := v.redemptionCount + 1 } : Voucher).exhausted = true := by
      simp [Voucher.exhausted, hmu, hmax, hcnt]
    refine ⟨{ v with redeemedBy := v.redeemedBy ++ [(guestId, now)],
                     redemptionCount := v.redemptionCount + 1,
                     status := "redeemed" }, ?_, rfl, ?_, rfl, ?_⟩
    · unfold Voucher.redeem
      split
      · rename_i h
        exact absurd hs h
      · split
        · rename_i h
          rw [hny] at h
          exact absurd h (by simp)
        · split
          · rename_i h
            rw [hpv] at h
            exact absurd h (by simp)
          · split
            · rename_i h
              rw [hex] at h
              exact absurd h (by simp)
            · dsimp only
              rw [if_pos hex']
    · simp [hcnt]
    · intro g2 t2
      rfl

/-- C5: `processRefund` fails (leaving the payment unmodified) unless the
status is `succeeded`, rejects a requested amount above the original, and on
success records a refund amount that defaults to the full amount, with status
`refunded` exactly when the refunded amount equals the original and
`partially_refunded` exactly when it is strictly smaller. -/
theorem processRefund_spec :
    ∀ (p : Payment) (amount : Option ℚ) (reason : String) (now : Int),
      (p.status ≠ "succeeded" →
        p.processRefund amount reason now =
          Except.error ("Cannot refund payment with status: " ++ p.status)) ∧
      (∀ a, amount = some a → p.amount < a →
        ∃ msg, p.processRefund amount reason now = Except.error msg) ∧
      (∀ p', p.processRefund amount reason now = Except.ok p' →
        ∃ ra, p'.refund = some ⟨ra, reason, now⟩ ∧ 0 < ra ∧ ra ≤ p.amount ∧
          (p'.status = "refunded" ↔ ra = p.amount) ∧
          (p'.status = "partially_refunded" ↔ ra < p.amount) ∧
          (amount = none → ra = p.amount)) := by
  intro p amount reason now
  refine ⟨?_, ?_, ?_⟩
  · intro hst
    unfold Payment.processRefund
    rw [if_pos hst]
  · intro a ha hgt
    subst ha
    unfold Payment.processRefund
    by_cases hst : p.status ≠ "succeeded"
    · rw [if_pos hst]
      exact ⟨_, rfl⟩
    · rw [if_neg hst]
      by_cases hle : refundAmountOf (some a) p.amount ≤ 0
      · rw [if_pos hle]
        exact ⟨_, rfl⟩
      · rw [if_neg hle]
        by_cases h0 : a = 0
        · exfalso
          apply hle
          subst h0
          show (if (0 : ℚ) = 0 then p.amount else 0) ≤ 0
          rw [if_pos rfl]
          linarith
        · have hrw : refundAmountOf (some a) p.amount = a := by
            simp [refundAmountOf, h0]
          rw [if_pos (by rw [hrw]; exact hgt)]
          exact ⟨_, rfl⟩
  · intro p' hok
    unfold Payment.processRefund at hok
    by_cases hst : p.status ≠ "succeeded"
    · rw [if_pos hst] at hok
      exact absurd hok (by simp)
    · rw [if_neg hst] at hok
      by_cases hle : refundAmountOf amount p.amount ≤ 0
      · rw [if_pos hle] at hok
        exact absurd hok (by simp)
      · rw [if_neg hle] at hok
        by_cases hlt : p.amount < refundAmountOf amount p.amount
        · rw [if_pos hlt] at hok
          exact absurd hok (by simp)
        · rw [if_neg hlt] at hok
          have hp' := (Except.ok.injEq _ _).mp hok
          subst hp'
          refine ⟨refundAmountOf amount p.amount, rfl, not_le.mp hle, not_lt.mp hlt, ?_, ?_, ?_⟩
          · show (if refundAmountOf amount p.amount = p.amount then "refunded" else "partially_refunded") = "refunded"
              ↔ refundAmountOf amount p.amount = p.amount
            by_cases heq : refundAmountOf amount p.amount = p.amount
            · rw [if_pos heq]
              exact ⟨fun _ => heq, fun _ => rfl⟩
            · rw [if_neg heq]
              exact ⟨fun h => absurd h (by decide), fun h => absurd h heq⟩
          · show (if refundAmountOf amount p.amount = p.amount then "refunded" else "partially_refunded") = "partially_refunded"
              ↔ refundAmountOf amount p.amount < p.amount
            by_cases heq : refundAmountOf amount p.amount = p.amount
            · rw [if_pos heq]
              exact ⟨fun h => absurd h (by decide), fun h => absurd heq (ne_of_lt h)⟩
            · rw [if_neg heq]
              exact ⟨fun _ => lt_of_le_of_ne (not_lt.mp hlt) heq, fun _ => rfl⟩
          · intro hnone
            rw [hnone]
            rfl

/-- A fresh single-use voucher used to witness C3. -/
def freshVoucher : Voucher :=
  { code := "ABCDEFGH", status := "active", redemptionCount := 0, maxRedemptions := 1,
    multipleUse := false, validFrom := none, validUntil := none, redeemedBy := [] }

/-- Witness for C3 at a concrete voucher. -/
theorem single_use_exhaustion_spec_witness :
    ∃ v', freshVoucher.redeem 1 5 = RedeemOutcome.ok v' ∧
      v'.status = "redeemed" ∧ v'.redemptionCount = 1 ∧
      v'.redeemedBy = freshVoucher.redeemedBy ++ [(1, 5)] ∧
      ∀ g2 t2, v'.redeem g2 t2 = RedeemOutcome.err "Voucher is redeemed" v' :=
  (single_use_exhaustion_spec freshVoucher 1 5).2 rfl rfl rfl rfl rfl rfl

/-- A succeeded payment used to witness C5. -/
def succeededPayment : Payment :=
  { id := 1, amount := 10, currency := "usd", status := "succeeded", provider := "stripe",
    providerPaymentId := "pi_1", providerData := [], refund := none, guestId := none,
    planId := some 2, processedAt := some 1 }

/-- The ledger row produced by the witness refund of C5. -/
def partRefundedPayment : Payment :=
  { succeededPayment with status := "partially_refunded", refund := some ⟨4, "dup", 7⟩ }

/-- Witness for C5: a partial refund of 4 out of 10 at a concrete payment. -/
theorem processRefund_spec_witness :
    ∃ ra, partRefundedPayment.refund = some ⟨ra, "dup", 7⟩ ∧
      0 < ra ∧ ra ≤ succeededPayment.amount ∧
      (partRefundedPayment.status = "refunded" ↔ ra = succeededPayment.amount) ∧
      (partRefundedPayment.status = "partially_refunded" ↔ ra < succeededPayment.amount) ∧
      ((some (4 : ℚ) : Option ℚ) = none → ra = succeededPayment.amount) :=
  (processRefund_spec succeededPayment (some 4) "dup" 7).2.2 partRefundedPayment rfl

/-- The terminal payment used by the C2 counterexample. -/
def terminalPayment : Payment :=
  { id := 1, amount := 10, currency := "usd", status := "succeeded", provider := "stripe",
    providerPaymentId := "pi_1", providerData := [], refund := none, guestId := none,
    planId := some 2, processedAt := some 1 }

/-- C2 counterexample: a payment already in the terminal status `succeeded`
is moved back to `initialized` by a confirm call whose provider re-query
reports `requires_payment_method` — the status machine is not monotonic. -/
theorem confirm_regresses_terminal_counterexample :
    terminalPayment.status = "succeeded" ∧
    (confirmPayment terminalPayment "requires_payment_method" [] 99).status = "initialized" := by
  decide

/-- C2 amended: `updateStatus` stores whatever status it is given, with no
guard on the previously stored one, and a confirm call therefore always sets
the stored status to the mapped provider status — terminal statuses are not
sticky and can regress. -/
theorem updateStatus_unconditional :
    ∀ (p : Payment) (s : String) (d : List (String × String)) (now : Int),
      (p.updateStatus s d now).status = s ∧
      (confirmPayment p s d now).status = mapStripeStatus s := by
  intro p s d now
  constructor
  · unfold Payment.updateStatus
    split
    · rfl
    · rfl
  · unfold confirmPayment Payment.updateStatus
    split
    · rfl
    · rfl

/-- The not-yet-valid voucher used by the C8 counterexample and witness. -/
def windowVoucher : Voucher :=
  { code := "WNDWCODE", status := "active", redemptionCount := 0, maxRedemptions := 1,
    multipleUse := false, validFrom := some 100, validUntil := some 200, redeemedBy := [] }

/-- C8 counterexample: redeeming an active voucher *before* `validFrom`
fails with `'Voucher is not yet valid'` and leaves the status `active` — it
does not flip the voucher to `expired` as the claim states for both sides of
the window. -/
theorem redeem_before_validFrom_counterexample :
    windowVoucher.redeem 1 50 = RedeemOutcome.err "Voucher is not yet valid" windowVoucher ∧
    windowVoucher.status = "active" := by
  decide

/-- C8 amended: for an active voucher, a redeem attempt after `validUntil`
fails with the expired error and flips the status to `expired`, while an
attempt before `validFrom` fails with the not-yet-valid error and leaves the
voucher unchanged. -/
theorem redeem_outside_window_spec :
    ∀ (v : Voucher) (guestId : Nat) (now : Int), v.status = "active" →
      (v.notYetValid now = false → v.pastValid now = true →
        v.redeem guestId now = RedeemOutcome.err "Voucher has expired" { v with status := "expired" }) ∧
      (v.notYetValid now = true →
        v.redeem guestId now = RedeemOutcome.err "Voucher is not yet valid" v) := by
  intro v guestId now hs
  constructor
  · intro hny hpv
    unfold Voucher.redeem
    rw [if_neg (by simp [hs]), if_neg (by simp [hny]), if_pos hpv]
  · intro hny
    unfold Voucher.redeem
    rw [if_neg (by simp [hs]), if_pos hny]

/-- Witness for C8 (amended): the same voucher redeemed after `validUntil`
is flipped to `expired`. -/
theorem redeem_outside_window_spec_witness :
    windowVoucher.redeem 1 300 =
      RedeemOutcome.err "Voucher has expired" { windowVoucher with status := "expired" } :=
  (redeem_outside_window_spec windowVoucher 1 300 rfl).1 (by decide) (by decide)

/-- The payment whose `payment_intent.succeeded` webhook is replayed in C1. -/
def paidPayment : Payment :=
  { id := 1, amount := 10, currency := "usd", status := "initialized", provider := "stripe",
    providerPaymentId := "pi_1", providerData := [], refund := none, guestId := some 1,
    planId := some 2, processedAt := none }

/-- The guest linked to `paidPayment` before the webhook arrives. -/
def paidGuest : Guest :=
  { mac := "aa:bb:cc:dd:ee:ff", authorized := false, authorizedAt := none, expiresAt := none,
    status := "pending", accessType := "payment", paymentId := some 1, voucherId := none,
    disconnectedAt := none }

/-- The ledger after the first delivery of `payment_intent.succeeded` at time
1000 (plan duration one hour). -/
def afterFirstDelivery : PortalState :=
  handlePaymentIntentSucceeded ⟨paidPayment, some paidGuest⟩ [] 3600000 1000

/-- The ledger after the identical event is redelivered at time 61000. -/
def afterReplay : PortalState :=
  handlePaymentIntentSucceeded afterFirstDelivery [] 3600000 61000

/-- C1: evaluating the webhook handler at the failing input.  The handler has
no already-succeeded guard: replaying the identical `payment_intent.succeeded`
event one minute later rewrites `processedAt` and re-authorizes the guest with
`expiresAt` recomputed from the replay time, extending the access window by a
minute — the second application is not a no-op. -/
theorem webhook_replay_not_idempotent :
    afterFirstDelivery.payment.status = "succeeded" ∧
    afterFirstDelivery.payment.processedAt = some 1000 ∧
    afterFirstDelivery.guest.map (fun g => g.expiresAt) = some (some 3601000) ∧
    afterReplay.payment.status = "succeeded" ∧
    afterReplay.payment.processedAt = some 61000 ∧
    afterReplay.guest.map (fun g => g.expiresAt) = some (some 3661000) ∧
    afterReplay ≠ afterFirstDelivery := by
  decide

/-- The succeeded payment being refunded in C4. -/
def refundablePayment : Payment :=
  { id := 3, amount := 10, currency := "usd", status := "succeeded", provider := "stripe",
    providerPaymentId := "pi_3", providerData := [], refund := none, guestId := some 9,
    planId := some 2, processedAt := some 1 }

/-- The authorized guest whose access came from `refundablePayment`. -/
def linkedGuest : Guest :=
  { mac := "aa:bb:cc:dd:ee:ff", authorized := true, authorizedAt := some 1,
    expiresAt := some 999999, status := "authorized", accessType := "payment",
    paymentId := some 3, voucherId := none, disconnectedAt := none }

/-- C4 counterexample: a *full* refund delivered through the `charge.refunded`
webhook deauthorizes the linked guest in the ledger but issues no
`unauthorize` call to the network controller (the call is only a TODO in the
handler), contradicting the claim that every full refund invokes
`unauthorize`. -/
theorem webhook_full_refund_skips_unauthorize_counterexample :
    (handleChargeRefunded refundablePayment (some linkedGuest) 1000 1000 [] 50).payment.status = "refunded" ∧
    (handleChargeRefunded refundablePayment (some linkedGuest) 1000 1000 [] 50).guest.map (fun g => g.authorized) = some false ∧
    (handleChargeRefunded refundablePayment (some linkedGuest) 1000 1000 [] 50).unauthorizeCalls = [] := by
  decide

/-- C4 amended: a full refund through the admin endpoint deauthorizes the
linked guest *and* calls the controller's unauthorize; a full refund through
the `charge.refunded` webhook deauthorizes the guest in the ledger but issues
no unauthorize call; a partial refund leaves the guest's authorization
unchanged on both paths. -/
theorem refund_revocation_spec :
    ∀ (p : Payment) (g : Guest) (data : List (String × String)) (now : Int),
      p.status = "succeeded" → p.guestId.isSome = true →
      g.accessType = "payment" → g.paymentId = some p.id →
      (refundPayment p (some g) none data now =
        Except.ok ⟨p.updateStatus "refunded" data now,
          some { g with authorized := false, status := "disconnected", disconnectedAt := some now },
          [g.mac]⟩) ∧
      (∀ a : ℚ, a ≠ 0 → a < p.amount →
        refundPayment p (some g) (some a) data now =
          Except.ok ⟨p.updateStatus "partially_refunded" data now, some g, []⟩) ∧
      (∀ ca : ℚ, handleChargeRefunded p (some g) ca ca data now =
        ⟨p.updateStatus "refunded" data now,
          some { g with authorized := false, status := "disconnected", disconnectedAt := some now },
          []⟩) ∧
      (∀ ca ar : ℚ, ar ≠ ca →
        handleChargeRefunded p (some g) ca ar data now =
          ⟨p.updateStatus "partially_refunded" data now, some g, []⟩) := by
  intro p g data now hst hg hacc hpid
  have hrev : revokeGuestAccess p (some g) "refunded" true now =
      (some { g with authorized := false, status := "disconnected", disconnectedAt := some now },
       [g.mac]) := by
    unfold revokeGuestAccess
    rw [if_pos ⟨hg, rfl⟩]
    dsimp only
    rw [if_pos ⟨hacc, hpid⟩]
    rfl
  have hrevW : revokeGuestAccess p (some g) "refunded" false now =
      (some { g with authorized := false, status := "disconnected", disconnectedAt := some now },
       []) := by
    unfold revokeGuestAccess
    rw [if_pos ⟨hg, rfl⟩]
    dsimp only
    rw [if_pos ⟨hacc, hpid⟩]
    rfl
  have hrevP : ∀ b, revokeGuestAccess p (some g) "partially_refunded" b now = (some g, []) := by
    intro b
    unfold revokeGuestAccess
    rw [if_neg (fun h => absurd h.2 (by decide))]
  refine ⟨?_, ?_, ?_, ?_⟩
  · unfold refundPayment
    rw [if_neg (fun h => h hst)]
    rw [show refundStatusOf none p.amount = "refunded" from rfl, hrev]
  · intro a h0 hlt
    unfold refundPayment
    rw [if_neg (fun h => h hst)]
    have hstat : refundStatusOf (some a) p.amount = "partially_refunded" := by
      show (if a ≠ 0 ∧ a < p.amount then "partially_refunded" else "refunded") = _
      rw [if_pos ⟨h0, hlt⟩]
    rw [hstat, hrevP]
  · intro ca
    unfold handleChargeRefunded
    rw [show chargeRefundStatusOf ca ca = "refunded" from if_pos rfl, hrevW]
  · intro ca ar hne
    unfold handleChargeRefunded
    have hstat : chargeRefundStatusOf ca ar = "partially_refunded" := by
      show (if ar = ca then "refunded" else "partially_refunded") = _
      rw [if_neg hne]
    rw [hstat, hrevP]

/-- Witness for C4 (amended): the admin full-refund path at the concrete
payment and guest. -/
theorem refund_revocation_spec_witness :
    refundPayment refundablePayment (some linkedGuest) none [] 50 =
      Except.ok ⟨refundablePayment.updateStatus "refunded" [] 50,
        some { linkedGuest with authorized := false, status := "disconnected", disconnectedAt := some 50 },
        ["aa:bb:cc:dd:ee:ff"]⟩ :=
  (refund_revocation_spec refundablePayment linkedGuest [] 50 rfl rfl rfl rfl).1

/-- A `getD` access with an in-list default stays in the list. -/
theorem getD_mem_of_default_mem {α : Type} (l : List α) (i : Nat) (d : α) (hd : d ∈ l) :
    l.getD i d ∈ l := by
  show (l.get? i).getD d ∈ l
  cases h : l.get? i with
  | none => simpa using hd
  | some a =>
    simp only [Option.getD_some]
    exact List.get?_mem h

/-- A generated code has one character per random byte. -/
theorem generateCode_length (bytes : List Nat) :
    (generateCode bytes).length = bytes.length := by
  show (bytes.map _).length = bytes.length
  exact List.length_map _ _

/-- Every character of a generated code comes from the restricted alphabet. -/
theorem generateCode_mem_alphabet (bytes : List Nat) :
    ∀ ch ∈ (generateCode bytes).toList, ch ∈ voucherAlphabet := by
  intro ch hch
  have hch' : ch ∈ bytes.map (fun b => voucherAlphabet.getD (b % voucherAlphabet.length) 'A') := hch
  rcases List.mem_map.mp hch' with ⟨b, _, rfl⟩
  exact getD_mem_of_default_mem _ _ _ (by decide)

/-- The candidate accepted by one round of the collision loop is fresh with
respect to the persisted codes and comes from the draw sequence. -/
theorem firstFresh_spec (existing : List String) :
    ∀ draws c rest, firstFresh existing draws = some (c, rest) →
      existing.contains c = false ∧ c ∈ draws ∧ ∀ x ∈ rest, x ∈ draws := by
  intro draws
  induction draws with
  | nil =>
    intro c rest h
    simp [firstFresh] at h
  | cons d ds ih =>
    intro c rest h
    unfold firstFresh at h
    cases hc : existing.contains d with
    | true =>
      rw [hc] at h
      simp only [if_true] at h
      obtain ⟨h1, h2, h3⟩ := ih c rest h
      exact ⟨h1, List.mem_cons_of_mem _ h2, fun x hx => List.mem_cons_of_mem _ (h3 x hx)⟩
    | false =>
      rw [hc] at h
      simp only [Bool.false_eq_true, if_false, Option.some.injEq, Prod.mk.injEq] at h
      obtain ⟨rfl, rfl⟩ := h
      exact ⟨hc, List.mem_cons_self _ _, fun x hx => List.mem_cons_of_mem _ hx⟩

/-- A successful batch has exactly `n` codes, each fresh with respect to the
persisted codes and drawn from the random sequence. -/
theorem batchCodes_spec (existing : List String) :
    ∀ n draws codes, batchCodes existing n draws = some codes →
      codes.length = n ∧ ∀ c ∈ codes, existing.contains c = false ∧ c ∈ draws := by
  intro n
  induction n with
  | zero =>
    intro draws codes h
    unfold batchCodes at h
    simp only [Option.some.injEq] at h
    subst h
    exact ⟨rfl, by simp⟩
  | succ n ih =>
    intro draws codes h
    unfold batchCodes at h
    cases hf : firstFresh existing draws with
    | none =>
      rw [hf] at h
      simp at h
    | some pr =>
      obtain ⟨c, rest⟩ := pr
      rw [hf] at h
      dsimp only at h
      cases hb : batchCodes existing n rest with
      | none =>
        rw [hb] at h
        simp at h
      | some cs =>
        rw [hb] at h
        simp only [Option.map_some', Option.some.injEq] at h
        subst h
        obtain ⟨hlen, hall⟩ := ih rest cs hb
        obtain ⟨hc1, hc2, hsub⟩ := firstFresh_spec existing draws c rest hf
        refine ⟨by simp [hlen], ?_⟩
        intro x hx
        rcases List.mem_cons.mp hx with rfl | hx'
        · exact ⟨hc1, hc2⟩
        · obtain ⟨h1, h2⟩ := hall x hx'
          exact ⟨h1, hsub x h2⟩

/-- The unique-index guard of `insertMany` preserves duplicate-freeness of
the persisted collection: each document is inserted only when its code is not
already stored, and the first duplicate aborts the rest of the batch. -/
theorem insertManyOrdered_nodup :
    ∀ (l store : List String), store.Nodup → (insertManyOrdered store l).2.Nodup := by
  intro l
  induction l with
  | nil =>
    intro store h
    exact h
  | cons c cs ih =>
    intro store h
    unfold insertManyOrdered
    cases hc : store.contains c with
    | true =>
      simp only [if_true]
      exact h
    | false =>
      simp only [Bool.false_eq_true, if_false]
      apply ih
      rw [List.nodup_append]
      refine ⟨h, List.nodup_singleton c, ?_⟩
      rw [List.disjoint_singleton]
      simpa using hc

/-- Every code persisted by `insertMany` was either already stored or part of
the inserted batch. -/
theorem insertManyOrdered_mem :
    ∀ (l store : List String) (x : String),
      x ∈ (insertManyOrdered store l).2 → x ∈ store ∨ x ∈ l := by
  intro l
  induction l with
  | nil =>
    intro store x hx
    exact Or.inl hx
  | cons c cs ih =>
    intro store x hx
    unfold insertManyOrdered at hx
    cases hc : store.contains c with
    | true =>
      rw [hc] at hx
      simp only [if_true] at hx
      exact Or.inl hx
    | false =>
      rw [hc] at hx
      simp only [Bool.false_eq_true, if_false] at hx
      rcases ih (store ++ [c]) x hx with h | h
      · rcases List.mem_append.mp h with h' | h'
        · exact Or.inl h'
        · exact Or.inr (by simpa using Or.inl (List.mem_singleton.mp h'))
      · exact Or.inr (List.mem_cons_of_mem _ h)

/-- C6: every code a generation batch adds to the collection is an
8-character string over the restricted 32-symbol alphabet, and the persisted
collection never holds two vouchers with the same code: the selection loop
only accepts candidates fresh with respect to the persisted codes, and the
`insertMany` step is guarded by the schema's unique index on `code`, which
rejects any duplicate insert — so across all batches in the system's history
no two persisted vouchers share a code. -/
theorem generateBatch_unique_codes :
    ∀ (existing draws : List String) (count : Nat),
      (∀ d ∈ draws, ∃ bytes, bytes.length = 8 ∧ d = generateCode bytes) →
      existing.Nodup →
      (generateBatch existing count draws).2.Nodup ∧
      ∀ c ∈ (generateBatch existing count draws).2, c ∉ existing →
        c.length = 8 ∧ ∀ ch ∈ c.toList, ch ∈ voucherAlphabet := by
  intro existing draws count hdraws hnd
  unfold generateBatch
  cases hb : batchCodes existing count draws with
  | none =>
    exact ⟨hnd, fun c hc hcex => absurd hc hcex⟩
  | some codes =>
    constructor
    · exact insertManyOrdered_nodup codes existing hnd
    · intro c hc hcex
      rcases insertManyOrdered_mem codes existing c hc with h | h
      · exact absurd h hcex
      · obtain ⟨_, hall⟩ := batchCodes_spec existing count draws codes hb
        obtain ⟨_, hdmem⟩ := hall c h
        obtain ⟨bytes, hb8, hceq⟩ := hdraws c hdmem
        subst hceq
        exact ⟨by rw [generateCode_length]; exact hb8, generateCode_mem_alphabet bytes⟩

/-- The draw sequence used by the C6 witness. -/
def freshDraws : List String := [generateCode [0, 0, 0, 0, 0, 0, 0, 0], generateCode [1, 1, 1, 1, 1, 1, 1, 1]]

/-- Witness for C6: with `AAAAAAAA` already persisted, a batch of one skips
the colliding first draw, accepts and persists the fresh 8-character
`BBBBBBBB`, and the collection stays duplicate-free. -/
theorem generateBatch_unique_codes_witness :
    (generateBatch ["AAAAAAAA"] 1 freshDraws).2.Nodup ∧
    ∀ c ∈ (generateBatch ["AAAAAAAA"] 1 freshDraws).2, c ∉ (["AAAAAAAA"] : List String) →
      c.length = 8 ∧ ∀ ch ∈ c.toList, ch ∈ voucherAlphabet :=
  generateBatch_unique_codes ["AAAAAAAA"] freshDraws 1
    (fun d hd => by
      rcases List.mem_cons.mp hd with rfl | hd'
      · exact ⟨[0, 0, 0, 0, 0, 0, 0, 0], rfl, rfl⟩
      · rcases List.mem_cons.mp hd' with rfl | hd''
        · exact ⟨[1, 1, 1, 1, 1, 1, 1, 1], rfl, rfl⟩
        · cases hd'')
    (by decide)

/-- C7 counterexample: on a draw stream all of whose candidates collide with
an existing code, the `do … while (existingVoucher)` loop yields no result at
*any* fuel bound — it retries unboundedly and there is no `ExhaustionError`
path in the code. -/
theorem collision_loop_unbounded_counterexample :
    ¬ ∃ n c, pickCodeFuel ["AAAAAAAA"] (fun _ => "AAAAAAAA") n = some c := by
  rintro ⟨n, c, h⟩
  have key : ∀ m, pickCodeFuel ["AAAAAAAA"] (fun _ => "AAAAAAAA") m = none := by
    intro m
    induction m with
    | zero => rfl
    | succ k ih =>
      unfold pickCodeFuel
      rw [if_pos (by decide)]
      exact ih
  rw [key n] at h
  cases h

/-- Any code the collision loop returns is fresh. -/
theorem pickCodeFuel_sound (existing : List String) :
    ∀ n (draws : Nat → String) c, pickCodeFuel existing draws n = some c →
      existing.contains c = false ∧ ∃ k, draws k = c := by
  intro n
  induction n with
  | zero =>
    intro draws c h
    cases h
  | succ m ih =>
    intro draws c h
    unfold pickCodeFuel at h
    cases hc : existing.contains (draws 0) with
    | true =>
      rw [hc] at h
      simp only [if_true] at h
      obtain ⟨h1, j, hj⟩ := ih _ c h
      exact ⟨h1, j + 1, hj⟩
    | false =>
      rw [hc] at h
      simp only [Bool.false_eq_true, if_false, Option.some.injEq] at h
      subst h
      exact ⟨hc, 0, rfl⟩

/-- If some draw is fresh, the collision loop terminates at some fuel. -/
theorem pickCodeFuel_complete (existing : List String) :
    ∀ k (draws : Nat → String), existing.contains (draws k) = false →
      ∃ n c, pickCodeFuel existing draws n = some c := by
  intro k
  induction k with
  | zero =>
    intro draws h
    refine ⟨1, draws 0, ?_⟩
    unfold pickCodeFuel
    rw [if_neg (by rw [h]; simp)]
  | succ j ih =>
    intro draws h
    cases hc : existing.contains (draws 0) with
    | false =>
      refine ⟨1, draws 0, ?_⟩
      unfold pickCodeFuel
      rw [if_neg (by rw [hc]; simp)]
    | true =>
      obtain ⟨n, c, hn⟩ := ih (fun i => draws (i + 1)) h
      refine ⟨n + 1, c, ?_⟩
      unfold pickCodeFuel
      rw [if_pos hc]
      exact hn

/-- C7 amended: the collision-retry loop of `generateBatch` has no bound and
no `ExhaustionError`: it terminates (at some finite number of retries) exactly
when some draw of the random stream is not an already-persisted code, and any
code it accepts is fresh; on a stream with no fresh draw it retries
forever. -/
theorem collision_retry_loop_spec :
    ∀ (existing : List String) (draws : Nat → String),
      ((∃ n c, pickCodeFuel existing draws n = some c) ↔
        (∃ k, existing.contains (draws k) = false)) ∧
      (∀ n c, pickCodeFuel existing draws n = some c → existing.contains c = false) := by
  intro existing draws
  constructor
  · constructor
    · rintro ⟨n, c, h⟩
      obtain ⟨h1, k, hk⟩ := pickCodeFuel_sound existing n draws c h
      exact ⟨k, by rw [hk]; exact h1⟩
    · rintro ⟨k, hk⟩
      exact pickCodeFuel_complete existing k draws hk
  · intro n c h
    exact (pickCodeFuel_sound existing n draws c h).1

/-- Witness for C7 (amended) at a concrete existing set and draw stream. -/
theorem collision_retry_loop_spec_witness :
    ((∃ n c, pickCodeFuel ["AAAAAAAA"] (fun _ => "BBBBBBBB") n = some c) ↔
      (∃ k, (["AAAAAAAA"] : List String).contains ((fun _ : Nat => "BBBBBBBB") k) = false)) ∧
    (∀ n c, pickCodeFuel ["AAAAAAAA"] (fun _ => "BBBBBBBB") n = some c →
      (["AAAAAAAA"] : List String).contains c = false) :=
  collision_retry_loop_spec ["AAAAAAAA"] (fun _ => "BBBBBBBB")

/-- C10: the admin voucher-generation endpoint silently clamps the requested
count at 100: for any request above 100 the effective batch size is exactly
100, and a successful batch then contains exactly 100 vouchers. -/
theorem generateVouchers_truncates_at_100 :
    ∀ (count : Nat) (existing draws codes : List String), 100 < count →
      batchCodes existing (effectiveVoucherCount count) draws = some codes →
      effectiveVoucherCount count = 100 ∧ codes.length = 100 := by
  intro count existing draws codes hgt hb
  have h100 : effectiveVoucherCount count = 100 :=
    Nat.min_eq_right (Nat.le_of_lt hgt)
  refine ⟨h100, ?_⟩
  have hlen := (batchCodes_spec existing _ draws codes hb).1
  rw [h100] at hlen
  exact hlen

/-- Witness for C10: a request for 101 vouchers creates exactly 100. -/
theorem generateVouchers_truncates_at_100_witness :
    effectiveVoucherCount 101 = 100 ∧ (List.replicate 100 "AAAAAAAA").length = 100 :=
  generateVouchers_truncates_at_100 101 [] (List.replicate 100 "AAAAAAAA")
    (List.replicate 100 "AAAAAAAA") (by decide) (by decide)

end GuestPortal
